import Mathlib

/-!
Verification of the `useRequest` composable (src/src/composables/useRequest.ts).

The composable wraps a platform request primitive. Per instance it keeps
reactive cells (`response`, `data`, `isFinished`, `isLoading`, `error`), a
generation counter `executeCounter`, and an `execute` function split here into
its synchronous part (`executeStart`) and the transport-completion callbacks
(`handleOutcome` for the `then`/`catch` handlers, `executeComplete` adding the
`finally` generation check).  Callback invocations and toast notifications are
recorded as a list of `Event`s.  The thenable returned by `execute` is modelled
by `promiseOutcome`, the settlement that `waitUntilFinished` would produce in a
given state.  `undefined` is modelled by `Option.none` throughout; JS string
truthiness (empty string falsy) is made explicit where the source relies on it.
-/

namespace UseRequest

/-- `Partial<UniApp.RequestOptions>`: a configuration bag where every field is
optional (`none` models an absent / `undefined` property). -/
structure RequestConfig where
  url : Option String := none
  method : Option String := none
  header : Option String := none
  timeout : Option Nat := none
  body : Option String := none
  deriving DecidableEq

/-- The wire envelope `Response<T> = { code, msg, data }` the source casts
`res.data` to. -/
structure Response (T : Type) where
  code : String
  msg : String
  data : T
  deriving DecidableEq

/-- `UniApp.RequestSuccessCallbackResult` as consumed by `execute`: the HTTP
status code plus the body, read as the envelope. -/
structure RequestResponse (T : Type) where
  statusCode : Nat
  data : Response T
  deriving DecidableEq

/-- The reactive cells of one composable instance, plus `executeCounter`. -/
structure State (T E : Type) where
  response : Option (RequestResponse T) := none
  data : Option T := none
  isFinished : Bool := false
  isLoading : Bool := false
  error : Option (String ⊕ E) := none
  executeCounter : Nat := 0
  deriving DecidableEq

/-- Construction-time values captured by the `useRequest` closure: the bound
address (strict mode), the instance default config, and the options that the
completion logic reads. -/
structure Inst (T : Type) where
  url : Option String := none
  defaultConfig : RequestConfig := {}
  resetOnExecute : Bool := false
  initialData : Option T := none
  deriving DecidableEq

/-- Initial state of an instance: `data` starts at `initialData`, both flags
false, no error, counter zero. -/
def initState {T E : Type} (inst : Inst T) : State T E :=
  { data := inst.initialData }

/-- Address resolution of `execute`:
`typeof executeUrl === "string" ? executeUrl : url ?? config.url`, with the
default parameter `executeUrl = url` applied when the first argument is
absent/undefined.  `arg` is the first argument (a string, a config object, or
absent); `config` is the second argument. -/
def resolveUrl {T : Type} (inst : Inst T) (arg : Option (String ⊕ RequestConfig))
    (config : RequestConfig) : Option String :=
  let executeUrl : Option (String ⊕ RequestConfig) := arg <|> inst.url.map Sum.inl
  match executeUrl with
  | some (Sum.inl s) => some s
  | _ => inst.url <|> config.url

/-- The object literal `{ url: _url, ...defaultConfig }` passed to the
transport: a base whose only field is the resolved url, with every field
present in `defaultConfig` spread over it (so `defaultConfig` overrides). -/
def spreadOver (u : String) (dc : RequestConfig) : RequestConfig :=
  { url := some (dc.url.getD u)
    method := dc.method
    header := dc.header
    timeout := dc.timeout
    body := dc.body }

/-- The synchronous part of `execute`: clear `error`, resolve the address
(failing with the `ERR_INVALID_URL` sentinel and `isFinished := true`),
optionally reset `data`, set the loading flags, increment the counter and
capture it.  Returns the new state and, when the transport is invoked,
`some (capturedGeneration, requestDescriptor)`; `none` means the transport is
not called. -/
def executeStart {T E : Type} (inst : Inst T) (arg : Option (String ⊕ RequestConfig))
    (config : RequestConfig) (s : State T E) : State T E × Option (Nat × RequestConfig) :=
  let s1 : State T E := { s with error := none }
  match resolveUrl inst arg config with
  | none =>
      ({ s1 with error := some (Sum.inl "ERR_INVALID_URL"), isFinished := true }, none)
  | some u =>
      let s2 : State T E :=
        if inst.resetOnExecute then { s1 with data := inst.initialData } else s1
      let s3 : State T E := { s2 with isLoading := true, isFinished := false }
      let s4 : State T E := { s3 with executeCounter := s3.executeCounter + 1 }
      (s4, some (s4.executeCounter, spreadOver u inst.defaultConfig))

/-- Observable side effects of the completion handlers: toast notifications and
callback invocations (`onSuccess`, `onError`, `onFinish`). `onError` receives
either the envelope message string or the raw transport error. -/
inductive Event (T E : Type) where
  | toast (title : String)
  | onSuccess (d : T)
  | onError (v : String ⊕ E)
  | onFinish
  deriving DecidableEq

/-- How the transport future settles: resolution with a response, or rejection
with a network-level error. -/
inductive Outcome (T E : Type) where
  | success (res : RequestResponse T)
  | failure (e : E)
  deriving DecidableEq

/-- Fallback message `"请求错误"` used when the envelope message is falsy. -/
def fallbackMsg : String := "请求错误"

/-- Fixed network-error toast message `"网络错误"`. -/
def networkErrorMsg : String := "网络错误"

/-- The `then`/`catch` handlers of the transport call: 2xx stores the raw
response, unwraps the envelope `data` and fires `onSuccess`; 401 is an explicit
no-op; any other status shows a toast with the envelope message (or the
fallback when it is empty, JS `||`) and fires `onError` with the same value; a
rejection stores the error, shows the fixed network-error toast and fires
`onError` with the raw error. -/
def handleOutcome {T E : Type} (o : Outcome T E) (s : State T E) :
    State T E × List (Event T E) :=
  match o with
  | .success res =>
      if 200 ≤ res.statusCode ∧ res.statusCode < 300 then
        ({ s with response := some res, data := some res.data.data },
          [Event.onSuccess res.data.data])
      else if res.statusCode = 401 then (s, [])
      else
        let m := if res.data.msg = "" then fallbackMsg else res.data.msg
        (s, [Event.toast m, Event.onError (Sum.inl m)])
  | .failure e =>
      ({ s with error := some (Sum.inr e) },
        [Event.toast networkErrorMsg, Event.onError (Sum.inr e)])

/-- A full transport completion: the `then`/`catch` handler followed by the
`finally` block, which flips the flags and fires `onFinish` only when the
captured generation `gen` still equals the live counter. -/
def executeComplete {T E : Type} (gen : Nat) (o : Outcome T E) (s : State T E) :
    State T E × List (Event T E) :=
  let r := handleOutcome o s
  if gen = r.1.executeCounter then
    ({ r.1 with isLoading := false, isFinished := true }, r.2 ++ [Event.onFinish])
  else r

/-- Settlement of the thenable returned by `execute`, as a function of the
state in which `waitUntilFinished` observes it: `none` while `isFinished` is
false (pending); once `isFinished` is true, a rejection with `error` when set,
otherwise a resolution (with the result object, modelled as `Unit`). -/
def promiseOutcome {T E : Type} (s : State T E) : Option ((String ⊕ E) ⊕ Unit) :=
  if s.isFinished then
    match s.error with
    | some e => some (Sum.inl e)
    | none => some (Sum.inr ())
  else none

/-- One atomic event-loop step on an instance: the synchronous part of an
`execute` call, or a transport completion carrying its captured generation. -/
inductive Step (T E : Type) where
  | start (arg : Option (String ⊕ RequestConfig)) (config : RequestConfig)
  | complete (gen : Nat) (o : Outcome T E)

/-- State transition of a single step. -/
def runStep {T E : Type} (inst : Inst T) (s : State T E) : Step T E → State T E
  | .start a c => (executeStart inst a c s).1
  | .complete g o => (executeComplete g o s).1

/-- State reached after a sequence of steps. -/
def runTrace {T E : Type} (inst : Inst T) (s : State T E) : List (Step T E) → State T E
  | [] => s
  | st :: rest => runTrace inst (runStep inst s st) rest

/-- A start step resolves an address (does not take the invalid-url early
return); completion steps resolve trivially. -/
def Step.resolvesOn {T E : Type} (inst : Inst T) : Step T E → Prop
  | .start a c => (resolveUrl inst a c).isSome = true
  | .complete _ _ => True

/-- A completion step carries a generation that was actually captured by some
`execute` call, hence positive; start steps hold trivially. -/
def Step.genPos {T E : Type} : Step T E → Prop
  | .start _ _ => True
  | .complete g _ => 1 ≤ g

/-- Flag discipline of an instance: while no `execute` has started (counter
zero) both flags are false; afterwards the flags are exact complements. -/
def flagsInv {T E : Type} (s : State T E) : Prop :=
  (s.executeCounter = 0 → s.isLoading = false ∧ s.isFinished = false) ∧
  (s.executeCounter ≠ 0 → s.isLoading = !s.isFinished)

/-!  Constructor argument sniffing (`useRequest(...args)`). -/

/-- The options bag, every field optional (`undefined` when absent). Callbacks
are modelled as `Event`s, not stored here. -/
structure UseRequestOptions (T : Type) where
  immediate : Option Bool := none
  shallow : Option Bool := none
  initialData : Option T := none
  resetOnExecute : Option Bool := none
  deriving DecidableEq

/-- A value passed to the variadic `useRequest`: an address string, a config
object, or an options object. -/
inductive Arg (T : Type) where
  | str (s : String)
  | cfg (c : RequestConfig)
  | opt (o : UseRequestOptions T)
  deriving DecidableEq

/-- The config read out of a positional argument. -/
def argToConfig {T : Type} : Arg T → RequestConfig
  | .cfg c => c
  | _ => {}

/-- The options read out of a positional argument. -/
def argToOptions {T : Type} : Arg T → UseRequestOptions T
  | .opt o => o
  | _ => {}

/-- Outcome of the argument sniffing at the top of `useRequest`. -/
structure ParsedArgs (T : Type) where
  url : Option String
  defaultConfig : RequestConfig
  options : UseRequestOptions T
  deriving DecidableEq

/-- The argument sniffing: `url` is the first argument when it is a string;
`argsPlaceholder` is 1 in that strict mode, else 0; `defaultConfig` is
`args[argsPlaceholder]` when present; `options` is the LAST argument when
`args.length` is `2 + argsPlaceholder` or `3 + argsPlaceholder`, otherwise the
default `{ immediate: !!argsPlaceholder, shallow: true }`. -/
def parseArgs {T : Type} (args : List (Arg T)) : ParsedArgs T :=
  let url : Option String :=
    match args.head? with
    | some (Arg.str s) => some s
    | _ => none
  let argsPlaceholder : Nat := if url.isSome then 1 else 0
  let defaultConfig : RequestConfig :=
    if argsPlaceholder < args.length then ((args.get? argsPlaceholder).map argToConfig).getD {}
    else {}
  let options : UseRequestOptions T :=
    if args.length = 2 + argsPlaceholder ∨ args.length = 3 + argsPlaceholder then
      ((args.get? (args.length - 1)).map argToOptions).getD {}
    else { immediate := some (decide (argsPlaceholder ≠ 0)), shallow := some true }
  ⟨url, defaultConfig, options⟩

/-- JS truthiness of the destructured `immediate` (absent is falsy). -/
def effImmediate {T : Type} (o : UseRequestOptions T) : Bool := o.immediate.getD false

/-- JS truthiness of the destructured `shallow` (absent is falsy): decides
`shallow ? shallowRef : ref` for the `data` cell. -/
def effShallow {T : Type} (o : UseRequestOptions T) : Bool := o.shallow.getD false

/-- Destructuring default `resetOnExecute = false`. -/
def effResetOnExecute {T : Type} (o : UseRequestOptions T) : Bool :=
  o.resetOnExecute.getD false

/-- JS truthiness of the bound `url` in `if (immediate && url)`: absent and the
empty string are both falsy. -/
def urlTruthy : Option String → Bool
  | none => false
  | some s => decide (s ≠ "")

/-- The instance closure captured from the parsed arguments. -/
def mkInst {T : Type} (p : ParsedArgs T) : Inst T :=
  { url := p.url
    defaultConfig := p.defaultConfig
    resetOnExecute := effResetOnExecute p.options
    initialData := p.options.initialData }

/-- The guard of the automatic first call, `if (immediate && url) execute()`. -/
def autoFire {T : Type} (p : ParsedArgs T) : Bool :=
  effImmediate p.options && urlTruthy p.url

/-- Construction of an instance: parse the arguments, build the initial state,
and run the automatic first call when its guard holds.  Returns the state after
construction and the list of request descriptors handed to the transport during
construction. -/
def construct {T E : Type} (args : List (Arg T)) : State T E × List RequestConfig :=
  let p := parseArgs args
  let inst := mkInst p
  let s0 : State T E := initState inst
  if autoFire p then
    match executeStart inst none {} s0 with
    | (s1, some (_, d)) => (s1, [d])
    | (s1, none) => (s1, [])
  else (s0, [])

/-!  Helper lemmas characterising the two paths of `executeStart` and the
branches of the completion handlers. -/

theorem executeStart_none {T E : Type} (inst : Inst T) (arg : Option (String ⊕ RequestConfig))
    (config : RequestConfig) (s : State T E) (hu : resolveUrl inst arg config = none) :
    executeStart inst arg config s =
      ({ s with error := some (Sum.inl "ERR_INVALID_URL"), isFinished := true }, none) := by
  unfold executeStart
  rw [hu]

theorem executeStart_some {T E : Type} (inst : Inst T) (arg : Option (String ⊕ RequestConfig))
    (config : RequestConfig) (s : State T E) (u : String)
    (hu : resolveUrl inst arg config = some u) :
    executeStart inst arg config s =
      ({ s with error := none,
                data := if inst.resetOnExecute then inst.initialData else s.data,
                isLoading := true, isFinished := false,
                executeCounter := s.executeCounter + 1 },
        some (s.executeCounter + 1, spreadOver u inst.defaultConfig)) := by
  unfold executeStart
  rw [hu]
  by_cases hr : inst.resetOnExecute <;> simp [hr]

theorem handleOutcome_executeCounter {T E : Type} (o : Outcome T E) (s : State T E) :
    (handleOutcome o s).1.executeCounter = s.executeCounter := by
  cases o <;> unfold handleOutcome <;> (repeat' split) <;> rfl

theorem handleOutcome_isLoading {T E : Type} (o : Outcome T E) (s : State T E) :
    (handleOutcome o s).1.isLoading = s.isLoading := by
  cases o <;> unfold handleOutcome <;> (repeat' split) <;> rfl

theorem handleOutcome_isFinished {T E : Type} (o : Outcome T E) (s : State T E) :
    (handleOutcome o s).1.isFinished = s.isFinished := by
  cases o <;> unfold handleOutcome <;> (repeat' split) <;> rfl

theorem onFinish_not_mem_handleOutcome {T E : Type} (o : Outcome T E) (s : State T E) :
    Event.onFinish ∉ (handleOutcome o s).2 := by
  cases o <;> unfold handleOutcome <;> (repeat' split) <;> simp

theorem executeComplete_eq {T E : Type} (gen : Nat) (o : Outcome T E) (s : State T E) :
    executeComplete gen o s =
      if gen = s.executeCounter then
        ({ (handleOutcome o s).1 with isLoading := false, isFinished := true },
          (handleOutcome o s).2 ++ [Event.onFinish])
      else handleOutcome o s := by
  simp only [executeComplete, handleOutcome_executeCounter]

theorem handleOutcome_success_2xx {T E : Type} (res : RequestResponse T) (s : State T E)
    (hc : 200 ≤ res.statusCode ∧ res.statusCode < 300) :
    handleOutcome (Outcome.success res) s =
      ({ s with response := some res, data := some res.data.data },
        [Event.onSuccess res.data.data]) := by
  simp only [handleOutcome]
  rw [if_pos hc]

theorem handleOutcome_401 {T E : Type} (res : RequestResponse T) (s : State T E)
    (h : res.statusCode = 401) :
    handleOutcome (Outcome.success res) s = (s, []) := by
  simp only [handleOutcome]
  rw [h]
  norm_num

theorem handleOutcome_other {T E : Type} (res : RequestResponse T) (s : State T E)
    (hc : ¬(200 ≤ res.statusCode ∧ res.statusCode < 300)) (h401 : res.statusCode ≠ 401) :
    handleOutcome (Outcome.success res) s =
      (s, [Event.toast (if res.data.msg = "" then fallbackMsg else res.data.msg),
           Event.onError (Sum.inl (if res.data.msg = "" then fallbackMsg else res.data.msg))]) := by
  simp only [handleOutcome]
  rw [if_neg hc, if_neg h401]

theorem handleOutcome_failure {T E : Type} (e : E) (s : State T E) :
    handleOutcome (Outcome.failure e) s =
      ({ s with error := some (Sum.inr e) },
        [Event.toast networkErrorMsg, Event.onError (Sum.inr e)]) := rfl

/-- C2: when no address resolves (no string argument, no bound address, no url
in the config argument), `execute` sets `error` to the `ERR_INVALID_URL`
sentinel, sets `isFinished := true`, never writes `isLoading` (so it stays
false whenever it was false before the call), does not invoke the transport,
and the returned thenable rejects with that error. -/
theorem C2_invalid_url {T E : Type} (inst : Inst T) (arg : Option (String ⊕ RequestConfig))
    (config : RequestConfig) (s : State T E)
    (h : resolveUrl inst arg config = none) :
    (executeStart inst arg config s).2 = none ∧
    (executeStart inst arg config s).1.error = some (Sum.inl "ERR_INVALID_URL") ∧
    (executeStart inst arg config s).1.isFinished = true ∧
    (executeStart inst arg config s).1.isLoading = s.isLoading ∧
    (s.isLoading = false → (executeStart inst arg config s).1.isLoading = false) ∧
    promiseOutcome (executeStart inst arg config s).1 =
      some (Sum.inl (Sum.inl "ERR_INVALID_URL")) := by
  rw [executeStart_none inst arg config s h]
  exact ⟨rfl, rfl, rfl, rfl, fun hl => hl, by simp [promiseOutcome]⟩

/-- Witness for C2: a fresh easy-mode instance, `execute()` with an empty
config. -/
theorem C2_invalid_url_witness :
    resolveUrl ({} : Inst Nat) none {} = none ∧
    ((executeStart ({} : Inst Nat) none {} (initState {} : State Nat String)).2 = none ∧
     (executeStart ({} : Inst Nat) none {} (initState {} : State Nat String)).1.error =
       some (Sum.inl "ERR_INVALID_URL") ∧
     (executeStart ({} : Inst Nat) none {} (initState {} : State Nat String)).1.isFinished = true ∧
     (executeStart ({} : Inst Nat) none {} (initState {} : State Nat String)).1.isLoading =
       (initState {} : State Nat String).isLoading ∧
     ((initState {} : State Nat String).isLoading = false →
       (executeStart ({} : Inst Nat) none {} (initState {} : State Nat String)).1.isLoading = false) ∧
     promiseOutcome (executeStart ({} : Inst Nat) none {} (initState {} : State Nat String)).1 =
       some (Sum.inl (Sum.inl "ERR_INVALID_URL"))) :=
  ⟨rfl, C2_invalid_url ({} : Inst Nat) none {} (initState {}) rfl⟩

/-- C4: on a transport success with status in 200–299, the completion stores
the raw response in `response`, the envelope's `data` field in `data`, and
fires `onSuccess` with that value. -/
theorem C4_success_2xx {T E : Type} (gen : Nat) (res : RequestResponse T) (s : State T E)
    (h1 : 200 ≤ res.statusCode) (h2 : res.statusCode ≤ 299) :
    (executeComplete gen (Outcome.success res) s).1.response = some res ∧
    (executeComplete gen (Outcome.success res) s).1.data = some res.data.data ∧
    Event.onSuccess res.data.data ∈ (executeComplete gen (Outcome.success res) s).2 := by
  rw [executeComplete_eq, handleOutcome_success_2xx res s ⟨h1, by omega⟩]
  by_cases hg : gen = s.executeCounter <;> simp [hg]

/-- Witness for C4: status 200 with envelope data `7`. -/
theorem C4_success_2xx_witness :
    200 ≤ (⟨200, ⟨"0", "ok", 7⟩⟩ : RequestResponse Nat).statusCode ∧
    (⟨200, ⟨"0", "ok", 7⟩⟩ : RequestResponse Nat).statusCode ≤ 299 ∧
    ((executeComplete 1 (Outcome.success ⟨200, ⟨"0", "ok", 7⟩⟩)
        (initState {} : State Nat String)).1.response = some ⟨200, ⟨"0", "ok", 7⟩⟩ ∧
     (executeComplete 1 (Outcome.success ⟨200, ⟨"0", "ok", 7⟩⟩)
        (initState {} : State Nat String)).1.data = some 7 ∧
     Event.onSuccess 7 ∈
       (executeComplete 1 (Outcome.success (⟨200, ⟨"0", "ok", 7⟩⟩ : RequestResponse Nat))
          (initState {} : State Nat String)).2) :=
  ⟨by decide, by decide,
    C4_success_2xx 1 ⟨200, ⟨"0", "ok", 7⟩⟩ (initState {}) (by decide) (by decide)⟩

/-- C5: on a transport success whose status is neither 2xx nor 401, a toast is
shown whose title is the envelope message, or the fixed fallback when the
message is empty, and `onError` is fired with that same value. -/
theorem C5_other_status {T E : Type} (gen : Nat) (res : RequestResponse T) (s : State T E)
    (hc : ¬(200 ≤ res.statusCode ∧ res.statusCode ≤ 299)) (h401 : res.statusCode ≠ 401) :
    Event.toast (if res.data.msg = "" then fallbackMsg else res.data.msg) ∈
      (executeComplete gen (Outcome.success res) s).2 ∧
    Event.onError (Sum.inl (if res.data.msg = "" then fallbackMsg else res.data.msg)) ∈
      (executeComplete gen (Outcome.success res) s).2 := by
  have hc' : ¬(200 ≤ res.statusCode ∧ res.statusCode < 300) := by omega
  rw [executeComplete_eq, handleOutcome_other res s hc' h401]
  by_cases hg : gen = s.executeCounter <;> simp [hg]

/-- Witness for C5: status 500 with empty envelope message, so the fallback
message is surfaced, and status 500 with message "bad". -/
theorem C5_other_status_witness :
    ¬(200 ≤ (⟨500, ⟨"1", "", 0⟩⟩ : RequestResponse Nat).statusCode ∧
        (⟨500, ⟨"1", "", 0⟩⟩ : RequestResponse Nat).statusCode ≤ 299) ∧
    (⟨500, ⟨"1", "", 0⟩⟩ : RequestResponse Nat).statusCode ≠ 401 ∧
    (Event.toast (if (⟨500, ⟨"1", "", 0⟩⟩ : RequestResponse Nat).data.msg = ""
        then fallbackMsg else (⟨500, ⟨"1", "", 0⟩⟩ : RequestResponse Nat).data.msg) ∈
      (executeComplete 1 (Outcome.success (⟨500, ⟨"1", "", 0⟩⟩ : RequestResponse Nat))
        (initState {} : State Nat String)).2 ∧
     Event.onError (Sum.inl (if (⟨500, ⟨"1", "", 0⟩⟩ : RequestResponse Nat).data.msg = ""
        then fallbackMsg else (⟨500, ⟨"1", "", 0⟩⟩ : RequestResponse Nat).data.msg)) ∈
      (executeComplete 1 (Outcome.success (⟨500, ⟨"1", "", 0⟩⟩ : RequestResponse Nat))
        (initState {} : State Nat String)).2) :=
  ⟨by decide, by decide,
    C5_other_status 1 ⟨500, ⟨"1", "", 0⟩⟩ (initState {}) (by decide) (by decide)⟩

theorem complete401 {T E : Type} (g : Nat) (res : RequestResponse T) (s : State T E)
    (h401 : res.statusCode = 401) :
    executeComplete g (Outcome.success res) s =
      if g = s.executeCounter then
        ({ s with isLoading := false, isFinished := true }, [Event.onFinish])
      else (s, []) := by
  rw [executeComplete_eq, handleOutcome_401 res s h401]
  split <;> rfl

/-- C6 counterexample: the claim requires `error` to remain unchanged from its
value immediately before the `execute` call, but `execute` clears `error` at
call start.  Easy-mode instance; a first `execute()` with no address leaves
`error = ERR_INVALID_URL`; a second `execute("/a")` followed by a 401
completion leaves `error = none`, not the pre-call sentinel. -/
theorem C6_401_counterexample :
    (executeStart ({} : Inst Nat) none {} (initState {} : State Nat String)).1.error =
      some (Sum.inl "ERR_INVALID_URL") ∧
    (executeComplete 1 (Outcome.success ⟨401, ⟨"", "", 0⟩⟩)
        (executeStart ({} : Inst Nat) (some (Sum.inl "/a")) {}
          (executeStart ({} : Inst Nat) none {} (initState {} : State Nat String)).1).1).1.error
      = none := by
  decide

/-- C6 amended: for a 401 transport success on an instance with
`resetOnExecute` disabled, no toast is shown and neither `onError` nor
`onSuccess` fires; `data` (and `response`) are unchanged from immediately
before the `execute` call, and `error` is `undefined` afterwards (cleared at
call start, untouched by the 401 branch); only the loading-flag transition and
`onFinish` occur, contingent on the generation check. -/
theorem C6_401_amended {T E : Type} (inst : Inst T) (hreset : inst.resetOnExecute = false)
    (arg : Option (String ⊕ RequestConfig)) (config : RequestConfig)
    (s sA s2 : State T E) (u : String) (g : Nat) (pend : Option (Nat × RequestConfig))
    (res : RequestResponse T) (evs : List (Event T E))
    (hu : resolveUrl inst arg config = some u)
    (hA : executeStart inst arg config s = (sA, pend))
    (h401 : res.statusCode = 401)
    (hr : executeComplete g (Outcome.success res) sA = (s2, evs)) :
    s2.data = s.data ∧ s2.error = none ∧ s2.response = s.response ∧
    (∀ m, Event.toast m ∉ evs) ∧ (∀ d, Event.onSuccess d ∉ evs) ∧
    (∀ v, Event.onError v ∉ evs) ∧
    (g = sA.executeCounter → s2.isLoading = false ∧ s2.isFinished = true ∧
      evs = [Event.onFinish]) ∧
    (g ≠ sA.executeCounter → s2.isLoading = sA.isLoading ∧ s2.isFinished = sA.isFinished ∧
      evs = []) := by
  rw [executeStart_some inst arg config s u hu] at hA
  simp only [Prod.mk.injEq] at hA
  obtain ⟨hsA, -⟩ := hA
  rw [hreset] at hsA
  simp at hsA
  subst hsA
  rw [complete401 g res _ h401] at hr
  by_cases hg : g = s.executeCounter + 1
  · simp [hg] at hr
    obtain ⟨hs2, hevs⟩ := hr
    subst hs2; subst hevs
    refine ⟨rfl, rfl, rfl, by simp, by simp, by simp, fun _ => ⟨rfl, rfl, rfl⟩, fun h => ?_⟩
    exact absurd hg h
  · rw [if_neg (by exact hg)] at hr
    simp only [Prod.mk.injEq] at hr
    obtain ⟨hs2, hevs⟩ := hr
    subst hs2; subst hevs
    refine ⟨rfl, rfl, rfl, by simp, by simp, by simp, fun h => absurd h hg, fun _ => ⟨rfl, rfl, rfl⟩⟩

/-- Witness for the amended C6: strict address `"/a"` supplied per call, 401
envelope, current generation. -/
theorem C6_401_amended_witness :
    (⟨none, none, true, false, none, 1⟩ : State Nat String).data =
      (initState ({} : Inst Nat) : State Nat String).data ∧
    (⟨none, none, true, false, none, 1⟩ : State Nat String).error = none ∧
    ((1 : Nat) = (⟨none, none, false, true, none, 1⟩ : State Nat String).executeCounter →
      (⟨none, none, true, false, none, 1⟩ : State Nat String).isLoading = false ∧
      (⟨none, none, true, false, none, 1⟩ : State Nat String).isFinished = true ∧
      ([Event.onFinish] : List (Event Nat String)) = [Event.onFinish]) :=
  have X := C6_401_amended ({} : Inst Nat) rfl (some (Sum.inl "/a")) {}
    (initState {}) ⟨none, none, false, true, none, 1⟩ ⟨none, none, true, false, none, 1⟩
    "/a" 1 (some (1, ⟨some "/a", none, none, none, none⟩)) ⟨401, ⟨"", "", 0⟩⟩
    [Event.onFinish] rfl (by decide) rfl (by decide)
  ⟨X.1, X.2.1, X.2.2.2.2.2.2.1⟩

/-- C7 counterexample: a stale transport rejection records the error, but the
returned thenable does NOT reject with it when that invocation finishes — it
is still pending (`isFinished` is false because the generation check suppresses
the flag flip).  Two overlapping calls on a strict instance; the first (stale)
one rejects with "boom". -/
theorem C7_counterexample :
    (executeComplete 1 (Outcome.failure "boom")
        (executeStart (⟨some "/a", {}, false, none⟩ : Inst Nat) none {}
          (executeStart (⟨some "/a", {}, false, none⟩ : Inst Nat) none {}
            (initState ⟨some "/a", {}, false, none⟩ : State Nat String)).1).1).1.error
      = some (Sum.inr "boom") ∧
    promiseOutcome
      (executeComplete 1 (Outcome.failure "boom")
        (executeStart (⟨some "/a", {}, false, none⟩ : Inst Nat) none {}
          (executeStart (⟨some "/a", {}, false, none⟩ : Inst Nat) none {}
            (initState ⟨some "/a", {}, false, none⟩ : State Nat String)).1).1).1 = none := by
  decide

/-- C7 amended: on a transport rejection with error `e`, the error cell is set
to `e`, the fixed network-error toast is shown, and `onError` fires with the
raw `e`; and when that invocation's captured generation equals the live counter
at completion, the returned thenable rejects with `e` once the invocation
finishes (a stale rejection records the error but leaves the thenable
pending at that moment). -/
theorem C7_network_error {T E : Type} (g : Nat) (e : E) (s s2 : State T E)
    (evs : List (Event T E))
    (hr : executeComplete g (Outcome.failure e) s = (s2, evs)) :
    s2.error = some (Sum.inr e) ∧
    Event.toast networkErrorMsg ∈ evs ∧
    Event.onError (Sum.inr e) ∈ evs ∧
    (g = s.executeCounter → s2.isFinished = true ∧
      promiseOutcome s2 = some (Sum.inl (Sum.inr e))) := by
  rw [executeComplete_eq, handleOutcome_failure e s] at hr
  by_cases hg : g = s.executeCounter
  · rw [if_pos hg] at hr
    simp only [Prod.mk.injEq] at hr
    obtain ⟨hs2, hevs⟩ := hr
    subst hs2; subst hevs
    exact ⟨rfl, by simp, by simp, fun _ => ⟨rfl, by simp [promiseOutcome]⟩⟩
  · rw [if_neg hg] at hr
    simp only [Prod.mk.injEq] at hr
    obtain ⟨hs2, hevs⟩ := hr
    subst hs2; subst hevs
    exact ⟨rfl, by simp, by simp, fun h => absurd h hg⟩

/-- Witness for the amended C7: rejection with `"boom"` at the live
generation. -/
theorem C7_network_error_witness :
    (⟨none, none, true, false, some (Sum.inr "boom"), 1⟩ : State Nat String).error =
      some (Sum.inr "boom") ∧
    ((1 : Nat) = (⟨none, none, false, true, none, 1⟩ : State Nat String).executeCounter →
      (⟨none, none, true, false, some (Sum.inr "boom"), 1⟩ : State Nat String).isFinished = true ∧
      promiseOutcome (⟨none, none, true, false, some (Sum.inr "boom"), 1⟩ : State Nat String) =
        some (Sum.inl (Sum.inr "boom"))) :=
  have X := C7_network_error 1 "boom" (⟨none, none, false, true, none, 1⟩ : State Nat String)
    ⟨none, none, true, false, some (Sum.inr "boom"), 1⟩
    [Event.toast networkErrorMsg, Event.onError (Sum.inr "boom"), Event.onFinish] (by decide)
  ⟨X.1, X.2.2.2⟩

/-- C3 counterexample: the per-call config argument of `execute` supplies
`method = "POST"`, yet the descriptor handed to the transport is
`{ url := "/x" }` with no method field — the per-call config is dropped from
the merge (`{ url: _url, ...defaultConfig }` never spreads `config`). -/
theorem C3_counterexample :
    (executeStart ({} : Inst Nat) (some (Sum.inl "/x"))
        ⟨none, some "POST", none, none, none⟩ (initState {} : State Nat String)).2 =
      some (1, ⟨some "/x", none, none, none, none⟩) ∧
    ((executeStart ({} : Inst Nat) (some (Sum.inl "/x"))
        ⟨none, some "POST", none, none, none⟩ (initState {} : State Nat String)).2.map
      fun p => p.2.method) = some none := by
  decide

/-- C3 amended: for every `execute` call that reaches the transport, the
descriptor is the resolved address merged with the instance default config,
with the default config taking precedence (including over the resolved url);
the per-call config argument contributes no field (its url serves only as an
address fallback during resolution). -/
theorem C3_descriptor {T E : Type} (inst : Inst T) (arg : Option (String ⊕ RequestConfig))
    (config : RequestConfig) (s : State T E) (u : String)
    (hu : resolveUrl inst arg config = some u) :
    (executeStart inst arg config s).2 =
      some (s.executeCounter + 1, spreadOver u inst.defaultConfig) ∧
    (spreadOver u inst.defaultConfig).url = some (inst.defaultConfig.url.getD u) ∧
    (spreadOver u inst.defaultConfig).method = inst.defaultConfig.method ∧
    (spreadOver u inst.defaultConfig).header = inst.defaultConfig.header ∧
    (spreadOver u inst.defaultConfig).timeout = inst.defaultConfig.timeout ∧
    (spreadOver u inst.defaultConfig).body = inst.defaultConfig.body := by
  rw [executeStart_some inst arg config s u hu]
  exact ⟨rfl, rfl, rfl, rfl, rfl, rfl⟩

/-- Witness for the amended C3: default config carries `timeout = 5`; the
descriptor keeps the resolved url and the default config's timeout. -/
theorem C3_descriptor_witness :
    (executeStart (⟨none, ⟨none, none, none, some 5, none⟩, false, none⟩ : Inst Nat)
        (some (Sum.inl "/x")) {}
        (initState ⟨none, ⟨none, none, none, some 5, none⟩, false, none⟩ : State Nat String)).2 =
      some (0 + 1, spreadOver "/x" ⟨none, none, none, some 5, none⟩) ∧
    (spreadOver "/x" (⟨none, none, none, some 5, none⟩ : RequestConfig)).url = some "/x" ∧
    (spreadOver "/x" (⟨none, none, none, some 5, none⟩ : RequestConfig)).timeout = some 5 :=
  have X := C3_descriptor (⟨none, ⟨none, none, none, some 5, none⟩, false, none⟩ : Inst Nat)
    (some (Sum.inl "/x")) {}
    (initState ⟨none, ⟨none, none, none, some 5, none⟩, false, none⟩ : State Nat String) "/x" rfl
  ⟨X.1, X.2.1, X.2.2.2.2.1⟩

/-- C9 counterexample: an `execute` call that fails address resolution does
NOT increment the generation counter (the increment sits after the
invalid-url early return), contradicting "incremented once per call regardless
of whether an address resolves". -/
theorem C9_counterexample :
    (executeStart ({} : Inst Nat) none {} (initState {} : State Nat String)).1.executeCounter
      = 0 ∧
    ¬((executeStart ({} : Inst Nat) none {} (initState {} : State Nat String)).1.executeCounter
      = (initState {} : State Nat String).executeCounter + 1) := by
  decide

/-- C9 amended: the counter is incremented exactly once per `execute` call
that resolves an address; a call that fails address resolution leaves it
unchanged; completions never change it; no step ever decreases it. -/
theorem C9_counter {T E : Type} (inst : Inst T) (arg : Option (String ⊕ RequestConfig))
    (config : RequestConfig) (s : State T E) :
    ((resolveUrl inst arg config).isSome →
      (executeStart inst arg config s).1.executeCounter = s.executeCounter + 1) ∧
    (resolveUrl inst arg config = none →
      (executeStart inst arg config s).1.executeCounter = s.executeCounter) ∧
    (∀ (g : Nat) (o : Outcome T E),
      (executeComplete g o s).1.executeCounter = s.executeCounter) ∧
    (∀ st : Step T E, s.executeCounter ≤ (runStep inst s st).executeCounter) := by
  have hcmpl : ∀ (g : Nat) (o : Outcome T E),
      (executeComplete g o s).1.executeCounter = s.executeCounter := by
    intro g o
    rw [executeComplete_eq]
    by_cases hg : g = s.executeCounter <;>
      simp [hg, handleOutcome_executeCounter]
  refine ⟨?_, ?_, hcmpl, ?_⟩
  · intro h
    obtain ⟨u, hu⟩ := Option.isSome_iff_exists.mp h
    rw [executeStart_some inst arg config s u hu]
  · intro h
    rw [executeStart_none inst arg config s h]
  · intro st
    cases st with
    | start a c =>
      cases hru : resolveUrl inst a c with
      | none => simp [runStep, executeStart_none inst a c s hru]
      | some u => simp [runStep, executeStart_some inst a c s u hru]
    | complete g o => simp [runStep, hcmpl g o]

/-- Witness for the amended C9: a resolving call increments 0 to 1; a 401
completion leaves the counter unchanged. -/
theorem C9_counter_witness :
    (executeStart (⟨some "/a", {}, false, none⟩ : Inst Nat) none {}
        (initState ⟨some "/a", {}, false, none⟩ : State Nat String)).1.executeCounter =
      (initState (⟨some "/a", {}, false, none⟩ : Inst Nat) : State Nat String).executeCounter
        + 1 ∧
    (executeComplete 1 (Outcome.failure "x")
        (initState (⟨some "/a", {}, false, none⟩ : Inst Nat) : State Nat String)).1.executeCounter
      = (initState (⟨some "/a", {}, false, none⟩ : Inst Nat) : State Nat String).executeCounter :=
  ⟨(C9_counter (⟨some "/a", {}, false, none⟩ : Inst Nat) none {} (initState _)).1 (by decide),
   (C9_counter (⟨some "/a", {}, false, none⟩ : Inst Nat) none {} (initState _)).2.2.1 1
     (Outcome.failure "x")⟩

/-- C1: two overlapping `execute` invocations A then B on one instance, where
A's transport completes after B has started.  A's completion leaves
`isLoading` and `isFinished` untouched and does not fire `onFinish` (its
captured generation is stale), while still performing its success/error side
effects (writes to `data`/`response`/`error`, toasts, `onSuccess`/`onError`);
B's completion, whose captured generation equals the live counter, sets
`isLoading = false`, `isFinished = true` and fires `onFinish`. -/
theorem C1_staleness {T E : Type} (inst : Inst T)
    (a1 a2 : Option (String ⊕ RequestConfig)) (c1 c2 : RequestConfig)
    (s0 s1 s2 s3 s4 : State T E) (gA gB : Nat) (dA dB : RequestConfig)
    (oA oB : Outcome T E) (evA evB : List (Event T E))
    (h1 : executeStart inst a1 c1 s0 = (s1, some (gA, dA)))
    (h2 : executeStart inst a2 c2 s1 = (s2, some (gB, dB)))
    (hA : executeComplete gA oA s2 = (s3, evA))
    (hB : executeComplete gB oB s3 = (s4, evB)) :
    s3.isLoading = s2.isLoading ∧ s3.isFinished = s2.isFinished ∧
    Event.onFinish ∉ evA ∧
    (∀ res, oA = Outcome.success res → 200 ≤ res.statusCode → res.statusCode ≤ 299 →
      s3.data = some res.data.data ∧ s3.response = some res ∧
      Event.onSuccess res.data.data ∈ evA) ∧
    (∀ res, oA = Outcome.success res → ¬(200 ≤ res.statusCode ∧ res.statusCode ≤ 299) →
      res.statusCode ≠ 401 →
      Event.toast (if res.data.msg = "" then fallbackMsg else res.data.msg) ∈ evA ∧
      Event.onError (Sum.inl (if res.data.msg = "" then fallbackMsg else res.data.msg)) ∈ evA) ∧
    (∀ e, oA = Outcome.failure e → s3.error = some (Sum.inr e) ∧
      Event.toast networkErrorMsg ∈ evA ∧ Event.onError (Sum.inr e) ∈ evA) ∧
    s4.isLoading = false ∧ s4.isFinished = true ∧ Event.onFinish ∈ evB := by
  obtain ⟨u1, hu1⟩ : ∃ u, resolveUrl inst a1 c1 = some u := by
    cases hru : resolveUrl inst a1 c1 with
    | none => rw [executeStart_none inst a1 c1 s0 hru] at h1; simp at h1
    | some u => exact ⟨u, rfl⟩
  rw [executeStart_some inst a1 c1 s0 u1 hu1] at h1
  simp only [Prod.mk.injEq, Option.some.injEq] at h1
  obtain ⟨hs1, hga, -⟩ := h1
  have hc1 : s1.executeCounter = s0.executeCounter + 1 := by rw [← hs1]
  obtain ⟨u2, hu2⟩ : ∃ u, resolveUrl inst a2 c2 = some u := by
    cases hru : resolveUrl inst a2 c2 with
    | none => rw [executeStart_none inst a2 c2 s1 hru] at h2; simp at h2
    | some u => exact ⟨u, rfl⟩
  rw [executeStart_some inst a2 c2 s1 u2 hu2] at h2
  simp only [Prod.mk.injEq, Option.some.injEq] at h2
  obtain ⟨hs2, hgb, -⟩ := h2
  have hc2 : s2.executeCounter = s0.executeCounter + 1 + 1 := by
    rw [← hs2]
    show s1.executeCounter + 1 = s0.executeCounter + 1 + 1
    omega
  have hstale : gA ≠ s2.executeCounter := by omega
  rw [executeComplete_eq, if_neg hstale] at hA
  have hfst : (handleOutcome oA s2).1 = s3 := congrArg Prod.fst hA
  have hsnd : (handleOutcome oA s2).2 = evA := congrArg Prod.snd hA
  have hc3 : s3.executeCounter = s2.executeCounter := by
    rw [← hfst, handleOutcome_executeCounter]
  have hgb2 : gB = s3.executeCounter := by omega
  rw [executeComplete_eq, if_pos hgb2] at hB
  have hB1 : ({ (handleOutcome oB s3).1 with isLoading := false, isFinished := true }
      : State T E) = s4 := congrArg Prod.fst hB
  have hB2 : (handleOutcome oB s3).2 ++ [Event.onFinish] = evB := congrArg Prod.snd hB
  refine ⟨?_, ?_, ?_, ?_, ?_, ?_, ?_, ?_, ?_⟩
  · rw [← hfst, handleOutcome_isLoading]
  · rw [← hfst, handleOutcome_isFinished]
  · rw [← hsnd]; exact onFinish_not_mem_handleOutcome oA s2
  · intro res hres hlo hhi
    subst hres
    rw [handleOutcome_success_2xx res s2 ⟨hlo, by omega⟩] at hA
    simp only [Prod.mk.injEq] at hA
    obtain ⟨h3, hev⟩ := hA
    subst h3; subst hev
    exact ⟨rfl, rfl, by simp⟩
  · intro res hres hc h401
    subst hres
    rw [handleOutcome_other res s2 (by omega) h401] at hA
    simp only [Prod.mk.injEq] at hA
    obtain ⟨h3, hev⟩ := hA
    subst hev
    exact ⟨by simp, by simp⟩
  · intro e hres
    subst hres
    rw [handleOutcome_failure e s2] at hA
    simp only [Prod.mk.injEq] at hA
    obtain ⟨h3, hev⟩ := hA
    subst h3; subst hev
    exact ⟨rfl, by simp, by simp⟩
  · rw [← hB1]
  · rw [← hB1]
  · rw [← hB2]; simp

/-- Witness for C1: strict instance bound to `"/a"`; A and B both started with
no arguments; A (generation 1) rejects with `"boom"` after B (generation 2)
has started; then B completes with a 200 envelope carrying data 7. -/
theorem C1_staleness_witness :
    (⟨none, none, false, true, some (Sum.inr "boom"), 2⟩ : State Nat String).isLoading =
      (⟨none, none, false, true, none, 2⟩ : State Nat String).isLoading ∧
    Event.onFinish ∉ ([Event.toast networkErrorMsg, Event.onError (Sum.inr "boom")] :
      List (Event Nat String)) ∧
    (⟨some ⟨200, ⟨"0", "ok", 7⟩⟩, some 7, true, false, some (Sum.inr "boom"), 2⟩ :
      State Nat String).isFinished = true ∧
    Event.onFinish ∈ ([Event.onSuccess 7, Event.onFinish] : List (Event Nat String)) :=
  have X := C1_staleness (⟨some "/a", {}, false, none⟩ : Inst Nat) none none {} {}
    (initState ⟨some "/a", {}, false, none⟩)
    ⟨none, none, false, true, none, 1⟩ ⟨none, none, false, true, none, 2⟩
    ⟨none, none, false, true, some (Sum.inr "boom"), 2⟩
    ⟨some ⟨200, ⟨"0", "ok", 7⟩⟩, some 7, true, false, some (Sum.inr "boom"), 2⟩
    1 2 ⟨some "/a", none, none, none, none⟩ ⟨some "/a", none, none, none, none⟩
    (Outcome.failure "boom") (Outcome.success ⟨200, ⟨"0", "ok", 7⟩⟩)
    [Event.toast networkErrorMsg, Event.onError (Sum.inr "boom")]
    [Event.onSuccess 7, Event.onFinish]
    (by decide) (by decide) (by decide) (by decide)
  ⟨X.1, X.2.2.1, X.2.2.2.2.2.2.2.1, X.2.2.2.2.2.2.2.2⟩

/-- C8 counterexample: on an easy-mode instance, `execute("/a")` sets
`isLoading = true`; a following `execute()` with no resolvable address sets
`isFinished = true` WITHOUT clearing `isLoading`, so both flags are true at an
observable point after the first state transition — the claimed exclusive-or
fails. -/
theorem C8_counterexample :
    (runTrace ({} : Inst Nat) (initState {} : State Nat String)
        [Step.start (some (Sum.inl "/a")) {}, Step.start none {}]).isLoading = true ∧
    (runTrace ({} : Inst Nat) (initState {} : State Nat String)
        [Step.start (some (Sum.inl "/a")) {}, Step.start none {}]).isFinished = true := by
  decide

theorem flagsInv_initState {T E : Type} (inst : Inst T) :
    flagsInv (initState inst : State T E) :=
  ⟨fun _ => ⟨rfl, rfl⟩, fun h => absurd rfl h⟩

theorem flagsInv_runStep {T E : Type} (inst : Inst T) (s : State T E) (st : Step T E)
    (hres : st.resolvesOn inst) (hgen : st.genPos) (hinv : flagsInv s) :
    flagsInv (runStep inst s st) := by
  cases st with
  | start a c =>
    obtain ⟨u, hu⟩ := Option.isSome_iff_exists.mp hres
    simp only [runStep, executeStart_some inst a c s u hu]
    constructor
    · intro h; simp at h
    · intro h; rfl
  | complete g o =>
    have hcnt := handleOutcome_executeCounter o s
    have hld := handleOutcome_isLoading o s
    have hfin := handleOutcome_isFinished o s
    have hgen1 : 1 ≤ g := hgen
    simp only [runStep, executeComplete_eq]
    by_cases hg : g = s.executeCounter
    · rw [if_pos hg]
      constructor
      · intro h
        simp [hcnt] at h
        omega
      · intro h; rfl
    · rw [if_neg hg]
      constructor
      · intro h
        have h0 : s.executeCounter = 0 := by rw [← hcnt]; exact h
        obtain ⟨hl, hf⟩ := hinv.1 h0
        exact ⟨by rw [hld, hl], by rw [hfin, hf]⟩
      · intro h
        have h0 : s.executeCounter ≠ 0 := by rw [← hcnt]; exact h
        rw [hld, hfin]
        exact hinv.2 h0

theorem flagsInv_runTrace {T E : Type} (inst : Inst T) :
    ∀ (tr : List (Step T E)) (s : State T E),
      (∀ st ∈ tr, st.resolvesOn inst) → (∀ st ∈ tr, st.genPos) →
      flagsInv s → flagsInv (runTrace inst s tr) := by
  intro tr
  induction tr with
  | nil => intro s _ _ h; exact h
  | cons st rest ih =>
    intro s hres hgen hinv
    exact ih (runStep inst s st)
      (fun x hx => hres x (List.mem_cons_of_mem st hx))
      (fun x hx => hgen x (List.mem_cons_of_mem st hx))
      (flagsInv_runStep inst s st (hres st (List.mem_cons_self st rest))
        (hgen st (List.mem_cons_self st rest)) hinv)

/-- C8 amended: along any trace of `execute` starts and transport completions
in which every `execute` call resolves an address (each completion carrying a
generation some call captured, hence positive), the flags are both false while
no call has started, and afterwards exactly one of `isLoading`, `isFinished`
is true at every observable point.  (An `execute` call that fails address
resolution while a request is in flight breaks this, setting `isFinished`
without clearing `isLoading` — see the counterexample.) -/
theorem C8_flags {T E : Type} (inst : Inst T) (tr : List (Step T E))
    (hres : ∀ st ∈ tr, st.resolvesOn inst) (hgen : ∀ st ∈ tr, st.genPos) :
    ((runTrace inst (initState inst : State T E) tr).executeCounter = 0 →
      (runTrace inst (initState inst : State T E) tr).isLoading = false ∧
      (runTrace inst (initState inst : State T E) tr).isFinished = false) ∧
    ((runTrace inst (initState inst : State T E) tr).executeCounter ≠ 0 →
      (runTrace inst (initState inst : State T E) tr).isLoading =
        !(runTrace inst (initState inst : State T E) tr).isFinished) :=
  flagsInv_runTrace inst tr (initState inst) hres hgen (flagsInv_initState inst)

/-- Witness for the amended C8: one resolving start followed by its own
completion at generation 1. -/
theorem C8_flags_witness :
    ((runTrace ({} : Inst Nat) (initState {} : State Nat String)
        [Step.start (some (Sum.inl "/a")) {},
         Step.complete 1 (Outcome.success ⟨200, ⟨"0", "ok", 7⟩⟩)]).executeCounter = 0 →
      (runTrace ({} : Inst Nat) (initState {} : State Nat String)
        [Step.start (some (Sum.inl "/a")) {},
         Step.complete 1 (Outcome.success ⟨200, ⟨"0", "ok", 7⟩⟩)]).isLoading = false ∧
      (runTrace ({} : Inst Nat) (initState {} : State Nat String)
        [Step.start (some (Sum.inl "/a")) {},
         Step.complete 1 (Outcome.success ⟨200, ⟨"0", "ok", 7⟩⟩)]).isFinished = false) ∧
    ((runTrace ({} : Inst Nat) (initState {} : State Nat String)
        [Step.start (some (Sum.inl "/a")) {},
         Step.complete 1 (Outcome.success ⟨200, ⟨"0", "ok", 7⟩⟩)]).executeCounter ≠ 0 →
      (runTrace ({} : Inst Nat) (initState {} : State Nat String)
        [Step.start (some (Sum.inl "/a")) {},
         Step.complete 1 (Outcome.success ⟨200, ⟨"0", "ok", 7⟩⟩)]).isLoading =
        !(runTrace ({} : Inst Nat) (initState {} : State Nat String)
          [Step.start (some (Sum.inl "/a")) {},
           Step.complete 1 (Outcome.success ⟨200, ⟨"0", "ok", 7⟩⟩)]).isFinished) :=
  C8_flags ({} : Inst Nat)
    [Step.start (some (Sum.inl "/a")) {},
     Step.complete 1 (Outcome.success ⟨200, ⟨"0", "ok", 7⟩⟩)]
    (by intro st hst; fin_cases hst
        · exact rfl
        · trivial)
    (by intro st hst; fin_cases hst
        · trivial
        · exact Nat.le.refl)

/-- C10 counterexample: `useRequest("")` is strict mode (the first argument is
a string) with no options argument, so `immediate` and `shallow` default to
true — yet no automatic call fires during construction, because the
empty-string address is falsy in the `immediate && url` guard. -/
theorem C10_counterexample :
    (parseArgs [Arg.str ""] : ParsedArgs Nat).options.immediate = some true ∧
    (parseArgs [Arg.str ""] : ParsedArgs Nat).options.shallow = some true ∧
    (construct [Arg.str ""] : State Nat String × List RequestConfig).2 = [] := by
  decide

/-- C10 amended: in strict mode with no options argument, `immediate` and
`shallow` default to true, and the automatic first call fires during
construction provided the bound address string is non-empty; an options object
supplied as the last argument replaces those defaults entirely, so omitting
`immediate` suppresses the auto-fire and omitting `shallow` yields a deep
(non-shallow) `data` cell, even in strict mode. -/
theorem C10_options {T E : Type} (u : String) (c : RequestConfig) (o : UseRequestOptions T) :
    ((parseArgs [Arg.str u] : ParsedArgs T).options.immediate = some true ∧
     (parseArgs [Arg.str u] : ParsedArgs T).options.shallow = some true) ∧
    ((parseArgs [Arg.str u, Arg.cfg c] : ParsedArgs T).options.immediate = some true ∧
     (parseArgs [Arg.str u, Arg.cfg c] : ParsedArgs T).options.shallow = some true) ∧
    (u ≠ "" →
      (construct [Arg.str u] : State T E × List RequestConfig).2 = [spreadOver u {}]) ∧
    (u ≠ "" →
      (construct [Arg.str u, Arg.cfg c] : State T E × List RequestConfig).2 =
        [spreadOver u c]) ∧
    (parseArgs [Arg.str u, Arg.cfg c, Arg.opt o] : ParsedArgs T).options = o ∧
    (o.immediate = none →
      (construct [Arg.str u, Arg.cfg c, Arg.opt o] : State T E × List RequestConfig).2 = []) ∧
    (o.shallow = none →
      effShallow (parseArgs [Arg.str u, Arg.cfg c, Arg.opt o] : ParsedArgs T).options =
        false) := by
  refine ⟨⟨rfl, rfl⟩, ⟨rfl, rfl⟩, ?_, ?_, rfl, ?_, ?_⟩
  · intro h
    simp [construct, parseArgs, mkInst, autoFire, effImmediate, effResetOnExecute,
      urlTruthy, initState, executeStart, resolveUrl, argToConfig, h]
  · intro h
    simp [construct, parseArgs, mkInst, autoFire, effImmediate, effResetOnExecute,
      urlTruthy, initState, executeStart, resolveUrl, argToConfig, h]
  · intro h
    simp [construct, parseArgs, mkInst, autoFire, effImmediate, argToOptions, h]
  · intro h
    simp [effShallow, parseArgs, argToOptions, h]

/-- Witness for the amended C10: address `"/a"`, empty config, empty options
object (both `immediate` and `shallow` absent). -/
theorem C10_options_witness :
    (parseArgs [Arg.str "/a"] : ParsedArgs Nat).options.immediate = some true ∧
    (construct [Arg.str "/a"] : State Nat String × List RequestConfig).2 =
      [spreadOver "/a" {}] ∧
    (parseArgs [Arg.str "/a", Arg.cfg {}, Arg.opt {}] : ParsedArgs Nat).options =
      ({} : UseRequestOptions Nat) ∧
    (construct [Arg.str "/a", Arg.cfg {}, Arg.opt {}] :
      State Nat String × List RequestConfig).2 = [] ∧
    effShallow (parseArgs [Arg.str "/a", Arg.cfg {}, Arg.opt {}] : ParsedArgs Nat).options =
      false :=
  have X := C10_options (T := Nat) (E := String) "/a" {} {}
  ⟨X.1.1, X.2.2.1 (by decide), X.2.2.2.2.1, X.2.2.2.2.2.1 rfl, X.2.2.2.2.2.2 rfl⟩

end UseRequest
